import Mathlib

/-!
Verification development for the notch-capsule repository
(`src/src-tauri/src/lib.rs`, `config.rs`, `macos/native_mask.rs`,
`macos/native_anim.rs`).

Shallow embedding conventions:
* `Instant` timestamps are natural numbers counting milliseconds;
  `Instant::duration_since` saturates at zero, which matches `Nat`
  subtraction.
* `f64` values appearing in the sources are embedded as exact rationals
  (`ℚ`); every literal the claims compare is dyadic-exact.
* Fallible external facilities (filesystem reads, JSON parsing, Objective-C
  runtime lookups, mutex acquisition) are passed in as explicit oracle
  parameters; the control flow around them is translated from the source.
* The debounce state is protected by a `Mutex` in the source, so every call
  of `handle_mouse_move` is atomic; an arbitrary interleaving of the three
  sampling contexts is therefore some sequential list of samples, which is
  what the list-processing runs below quantify over.
-/

/-- Structure `DebounceState` embeds the shared `(bool, Instant)` pair behind the
`Arc<Mutex<...>>` in `start_hover_monitors` (lib.rs line 685):
`inside` is the confirmed hover flag, `ts` the last recorded timestamp. -/
structure DebounceState where
  inside : Bool
  ts : Nat
deriving Repr, DecidableEq

/-- Constant `open_delay` in `handle_mouse_move` (lib.rs line 663):
`Duration::from_millis(40)`. -/
def openDelayMs : Nat := 40

/-- Constant `close_delay` in `handle_mouse_move` (lib.rs line 664):
`Duration::from_millis(120)`. -/
def closeDelayMs : Nat := 120

/-- The body of `handle_mouse_move` (lib.rs lines 660-679) after the pointer
sample has been classified against the hover zone: given the classification
`inside` and the current instant `now`, it returns the updated debounce
state together with the optional `notch-hover` payload value emitted
(`changed` in the source). -/
def handle_mouse_move (st : DebounceState) (inside : Bool) (now : Nat) :
    DebounceState × Option Bool :=
  let wasInside := st.inside
  let ts := st.ts
  if inside && !wasInside && decide (openDelayMs ≤ now - ts) then
    ({ inside := true, ts := now }, some true)
  else if !inside && wasInside && decide (closeDelayMs ≤ now - ts) then
    ({ inside := false, ts := now }, some false)
  else if inside != wasInside then
    ({ inside := wasInside, ts := now }, none)
  else
    (st, none)

/-- Sequentially feed a list of classified samples `(inside, now)` through
`handle_mouse_move` against one shared state, collecting the values of the
emitted `notch-hover` events in order. -/
def runSamples (st : DebounceState) : List (Bool × Nat) → DebounceState × List Bool
  | [] => (st, [])
  | (i, t) :: rest =>
    let r := handle_mouse_move st i t
    let r2 := runSamples r.1 rest
    (r2.1, r.2.toList ++ r2.2)

/-- Number of confirmed flips of the `inside` flag along a sample trace. -/
def countFlips (st : DebounceState) : List (Bool × Nat) → Nat
  | [] => 0
  | (i, t) :: rest =>
    let st' := (handle_mouse_move st i t).1
    (if st'.inside = st.inside then 0 else 1) + countFlips st' rest

/-- Like `runSamples`, but additionally tracks the instant of the last
confirmed flip (`lastFlip`) and records, for every emitted event, the
triple (emission time, emitted value, instant of the flip preceding it).
At a confirmed transition the flip instant advances to the sample time. -/
def runTimed (st : DebounceState) (lastFlip : Nat) :
    List (Bool × Nat) → DebounceState × Nat × List (Nat × Bool × Nat)
  | [] => (st, lastFlip, [])
  | (i, t) :: rest =>
    let r := handle_mouse_move st i t
    match r.2 with
    | some v =>
      let rr := runTimed r.1 t rest
      (rr.1, rr.2.1, (t, v, lastFlip) :: rr.2.2)
    | none =>
      let rr := runTimed r.1 lastFlip rest
      (rr.1, rr.2.1, rr.2.2)

/-- Sample times are nondecreasing and bounded below by `t0`
(`Instant::now()` is monotonic in Rust). -/
def timesMono (t0 : Nat) : List (Bool × Nat) → Bool
  | [] => true
  | (_, t) :: rest => decide (t0 ≤ t) && timesMono t rest

/-- The direction-specific debounce threshold: open delay for a transition
to `inside = true`, close delay for a transition to `inside = false`. -/
def delayFor (v : Bool) : Nat :=
  if v then openDelayMs else closeDelayMs

/-- A display frame or hover rectangle (`NSRect`), with `f64` coordinates
embedded as exact rationals. -/
structure Rect where
  x : ℚ
  y : ℚ
  w : ℚ
  h : ℚ
deriving Repr, DecidableEq

/-- A pointer location (`NSPoint`). -/
structure Pt where
  x : ℚ
  y : ℚ
deriving Repr, DecidableEq

/-- The `hover_zone` closure of `start_hover_monitors` (lib.rs lines
689-716): scan the connected displays in oracle order, take the first whose
frame contains the mouse (inclusive bounds), and return the top-centered
zone rectangle `(x, y, w, h)`.  The zone dimensions are the literals
`(700.0, 200.0)` / `(460.0, 50.0)` from the source; the `NotchConfig`
hover fields are not consulted.  The screens list stands for
`NSScreen::screens(mtm)`, available because every caller runs on the main
thread. -/
def hover_zone (screens : List Rect) (expanded : Bool) (mouse : Pt) :
    Option (ℚ × ℚ × ℚ × ℚ) :=
  match screens.find? (fun f =>
      decide (f.x ≤ mouse.x) && decide (mouse.x ≤ f.x + f.w) &&
      decide (f.y ≤ mouse.y) && decide (mouse.y ≤ f.y + f.h)) with
  | none => none
  | some f =>
    let zw : ℚ := if expanded then 700 else 460
    let zh : ℚ := if expanded then 200 else 50
    let x := f.x + (f.w - zw) * (0.5 : ℚ)
    let y := f.y + f.h - zh
    some (x, y, zw, zh)

/-- The classification step at the top of `handle_mouse_move` (lib.rs lines
653-658): the sample is inside iff the hover zone exists and contains the
pointer (inclusive bounds). -/
def classify_inside (zone : Option (ℚ × ℚ × ℚ × ℚ)) (p : Pt) : Bool :=
  match zone with
  | some (x, y, w, h) =>
    decide (x ≤ p.x) && decide (p.x ≤ x + w) &&
    decide (y ≤ p.y) && decide (p.y ≤ y + h)
  | none => false

/-- A configuration field with its human-readable description
(`ConfigValue<T>` in config.rs). -/
structure ConfigValue (α : Type) where
  value : α
  description : String
deriving Repr, DecidableEq

/-- Struct `AnimationConfig` in config.rs. -/
structure AnimationConfig where
  expand_duration : ConfigValue ℚ
  collapse_duration : ConfigValue ℚ
  expand_timing : ConfigValue (List ℚ)
  collapse_timing : ConfigValue (List ℚ)
deriving Repr, DecidableEq

/-- Struct `DimensionsConfig` in config.rs. -/
structure DimensionsConfig where
  corner_radius : ConfigValue ℚ
  collapsed_width : ConfigValue ℚ
  collapsed_height : ConfigValue ℚ
  expanded_width : ConfigValue ℚ
  expanded_height : ConfigValue ℚ
deriving Repr, DecidableEq

/-- Struct `HoverConfig` in config.rs. -/
structure HoverConfig where
  collapsed_zone_width : ConfigValue ℚ
  collapsed_zone_height : ConfigValue ℚ
  expanded_zone_width : ConfigValue ℚ
  expanded_zone_height : ConfigValue ℚ
  expand_delay_ms : ConfigValue Nat
  collapse_delay_ms : ConfigValue Nat
  poll_interval_ms : ConfigValue Nat
deriving Repr, DecidableEq

/-- Struct `WindowConfig` in config.rs. -/
structure WindowConfig where
  level_offset : ConfigValue Int
deriving Repr, DecidableEq

/-- Struct `NotchConfig` in config.rs. -/
structure NotchConfig where
  animation : AnimationConfig
  dimensions : DimensionsConfig
  hover : HoverConfig
  window : WindowConfig
deriving Repr, DecidableEq

/-- The `impl Default for NotchConfig` (config.rs lines 86-167): the
compiled-in defaults, values and descriptions copied field by field. -/
def NotchConfig.default : NotchConfig where
  animation :=
    { expand_duration :=
        { value := 0.50
          description := "Duration in seconds for the expand animation" }
      collapse_duration :=
        { value := 0.35
          description := "Duration in seconds for the collapse animation" }
      expand_timing :=
        { value := [0.16, 1.0, 0.3, 1.0]
          description := "Cubic bezier control points for expand animation" }
      collapse_timing :=
        { value := [0.25, 0.1, 0.25, 1.0]
          description := "Cubic bezier control points for collapse animation" } }
  dimensions :=
    { corner_radius :=
        { value := 12.0, description := "Corner radius in points" }
      collapsed_width :=
        { value := 460.0, description := "Width when collapsed" }
      collapsed_height :=
        { value := 50.0, description := "Height when collapsed" }
      expanded_width :=
        { value := 700.0, description := "Width when expanded" }
      expanded_height :=
        { value := 200.0, description := "Height when expanded" } }
  hover :=
    { collapsed_zone_width :=
        { value := 460.0, description := "Hover zone width when collapsed" }
      collapsed_zone_height :=
        { value := 50.0, description := "Hover zone height when collapsed" }
      expanded_zone_width :=
        { value := 700.0, description := "Hover zone width when expanded" }
      expanded_zone_height :=
        { value := 200.0, description := "Hover zone height when expanded" }
      expand_delay_ms :=
        { value := 250
          description := "Milliseconds to wait before expanding when hovering over the notch area" }
      collapse_delay_ms :=
        { value := 150
          description := "Milliseconds to wait before collapsing when leaving the hover area" }
      poll_interval_ms :=
        { value := 50
          description := "Mouse polling interval in milliseconds" } }
  window :=
    { level_offset :=
        { value := 3, description := "Window level offset above main menu" } }

/-- Modelled from the spec (§4.1, §6): the hover-zone computation as the
specification words it, with the zone dimensions taken from the
configuration snapshot's `expanded_zone_*` / `collapsed_zone_*` fields
instead of the literals hardcoded in the source.  Used only to compare the
source's `hover_zone` against the claimed config linkage. -/
def hover_zone_spec (cfg : NotchConfig) (screens : List Rect) (expanded : Bool)
    (mouse : Pt) : Option (ℚ × ℚ × ℚ × ℚ) :=
  match screens.find? (fun f =>
      decide (f.x ≤ mouse.x) && decide (mouse.x ≤ f.x + f.w) &&
      decide (f.y ≤ mouse.y) && decide (mouse.y ≤ f.y + f.h)) with
  | none => none
  | some f =>
    let zw : ℚ := if expanded then cfg.hover.expanded_zone_width.value
                  else cfg.hover.collapsed_zone_width.value
    let zh : ℚ := if expanded then cfg.hover.expanded_zone_height.value
                  else cfg.hover.collapsed_zone_height.value
    let x := f.x + (f.w - zw) * (0.5 : ℚ)
    let y := f.y + f.h - zh
    some (x, y, zw, zh)

/-- The error returned by `NotchConfig::load` (config.rs lines 54-74):
either the propagated `serde_json` parse error (`?` on line 68) or the
final "Config file not found in any expected location". -/
inductive ConfigError where
  | parseFailed
  | notFound
deriving Repr, DecidableEq

/-- The candidate loop of `NotchConfig::load` (config.rs lines 65-73) after
`paths.into_iter().flatten()`: each list entry is the outcome of
`std::fs::read_to_string` for one candidate path (`none` = unreadable,
skipped; `some content` = readable).  The first readable candidate is
parsed; a parse failure propagates immediately via `?` without trying
later candidates. -/
def loadFrom (parse : String → Option NotchConfig) :
    List (Option String) → Except ConfigError NotchConfig
  | [] => .error .notFound
  | none :: rest => loadFrom parse rest
  | some content :: _ =>
    match parse content with
    | some cfg => .ok cfg
    | none => .error .parseFailed

/-- Function `NotchConfig::load` (config.rs lines 54-74).  `candidates` models the
`paths` vector: the outer `Option` is the fallible path construction
(`ok()`/`and_then` chains, flattened by `into_iter().flatten()`), the inner
`Option String` the result of reading that path.  `parse` models
`serde_json::from_str`. -/
def NotchConfig.load (parse : String → Option NotchConfig)
    (candidates : List (Option (Option String))) : Except ConfigError NotchConfig :=
  loadFrom parse (candidates.filterMap id)

/-- Function `NotchConfig::get` (config.rs lines 76-83): the `OnceLock` initializer
`Self::load().unwrap_or_else(|_| Self::default())`. -/
def NotchConfig.get (parse : String → Option NotchConfig)
    (candidates : List (Option (Option String))) : NotchConfig :=
  match NotchConfig.load parse candidates with
  | .ok cfg => cfg
  | .error _ => NotchConfig.default

/-- First `some` entry of a list of read outcomes. -/
def firstSome : List (Option String) → Option String
  | [] => none
  | none :: rest => firstSome rest
  | some s :: _ => some s

/-- The first readable candidate's content, after flattening the fallible
path constructions — the file `NotchConfig::load` commits to. -/
def firstReadable (candidates : List (Option (Option String))) : Option String :=
  firstSome (candidates.filterMap id)

/-- An Objective-C object reference (`id`); `none` models `nil` where an
`Option` is used. -/
abbrev ObjcId := Nat

/-- An event emitted through the Tauri `AppHandle` (`emit` in
native_mask.rs / native_anim.rs): channel name and the `phase` string of
the JSON payload. -/
structure EmittedEvent where
  channel : String
  phase : String
deriving Repr, DecidableEq

/-- A message sent to the attached native animator object
(`msg_send!` in native_mask.rs). -/
inductive NativeCall where
  | expandAnim (duration : ℚ) (animator : ObjcId)
  | collapseAnim (duration : ℚ) (animator : ObjcId)
deriving Repr, DecidableEq

/-- The observable effects of one bridge call: messages to the native
animator, events emitted through the app handle, and direct window
resizes (none of the native_mask.rs entry points resize directly). -/
structure BridgeResult where
  calls : List NativeCall
  emitted : List EmittedEvent
  resizes : List (ℚ × ℚ)
deriving Repr, DecidableEq

/-- Function `expand` in native_mask.rs (lines 230-247): on the main thread, lock
the `ANIMATOR` slot (`lockOk = false` models a poisoned lock, silently
skipped); if a handle is present, send
`expandWithDuration:0.30 appHandle:`; otherwise do nothing. -/
def expand (lockOk : Bool) (slot : Option ObjcId) : BridgeResult :=
  if lockOk then
    match slot with
    | some animator => { calls := [.expandAnim 0.30 animator], emitted := [], resizes := [] }
    | none => { calls := [], emitted := [], resizes := [] }
  else { calls := [], emitted := [], resizes := [] }

/-- Function `collapse` in native_mask.rs (lines 249-266): same shape as `expand`
with `collapseWithDuration:0.22 appHandle:`. -/
def collapse (lockOk : Bool) (slot : Option ObjcId) : BridgeResult :=
  if lockOk then
    match slot with
    | some animator => { calls := [.collapseAnim 0.22 animator], emitted := [], resizes := [] }
    | none => { calls := [], emitted := [], resizes := [] }
  else { calls := [], emitted := [], resizes := [] }

/-- Function `animate_window_to` in native_anim.rs (lines 20-70): if the `NSWindow`
is obtainable, set the window frame to the target size (animated) and
emit `notch-native-anim-end` with the given phase after the duration
elapses.  This is the direct-resize path; nothing in the repository
invokes it. -/
def animate_window_to (nsWinOk : Bool) (targetW targetH : ℚ)
    (phase : String) : BridgeResult :=
  if nsWinOk then
    { calls := []
      emitted := [{ channel := "notch-native-anim-end", phase := phase }]
      resizes := [(targetW, targetH)] }
  else { calls := [], emitted := [], resizes := [] }

/-- Function `set_progress` in native_mask.rs (lines 268-289).  `lockResult` is the
outcome of `ANIMATOR.lock()` (`.error ()` = poisoned → early return,
otherwise the slot contents); the progress value `p` is generic in its
type, since the source forwards any `f64` — including non-finite values —
without inspecting it.  The result is the list of
`setProgress:` messages sent, wrapped in `Except` so that a Rust panic
would appear as `.error`; no statement in the body can panic. -/
def set_progress {α : Type} (lockResult : Except Unit (Option ObjcId))
    (p : α) : Except String (List (ObjcId × α)) :=
  match lockResult with
  | .error _ => .ok []
  | .ok none => .ok []
  | .ok (some animator) => .ok [(animator, p)]

/-- Function `_notch_notify_anim_end` in native_mask.rs (lines 292-301): a null app
pointer returns without emitting; otherwise one `notch-native-anim-end`
event is emitted whose phase is `"expand"` for `phase == 0` and
`"collapse"` for every other `i32`. -/
def notify_anim_end (appPtrNull : Bool) (phase : Int) : List EmittedEvent :=
  if appPtrNull then []
  else
    [{ channel := "notch-native-anim-end"
       phase := if phase = 0 then "expand" else "collapse" }]

/-- One candidate dylib path in `attach_animator`: whether
`path.exists()` holds and whether `dlopen` returns a non-null handle. -/
structure LibProbe where
  pathExists : Bool
  dlopenOk : Bool
deriving Repr, DecidableEq

/-- The dylib discovery loop of `attach_animator` (native_mask.rs lines
77-97): first existing path whose `dlopen` succeeds sets `loaded`; failures
are only logged.  The result feeds nothing but a warning message. -/
def tryLoadDylib : List LibProbe → Bool
  | [] => false
  | p :: rest =>
    if p.pathExists then
      if p.dlopenOk then true else tryLoadDylib rest
    else tryLoadDylib rest

/-- The candidate class names tried by `attach_animator` (native_mask.rs
lines 110-114), in order. -/
def class_names : List String :=
  ["NotchCapsuleKit.NotchAnimator", "NotchAnimator",
   "_TtC15NotchCapsuleKit13NotchAnimator"]

/-- The external outcomes `attach_animator` depends on: window lookup,
dylib probes, Objective-C class resolution, instantiation, selector
checks, the `catch_unwind` around the `attachTo:` call, the `ANIMATOR`
lock, and the best-effort config propagation (the last three fields only
affect logging, never the slot). -/
structure AttachEnv where
  nsWindowOk : Bool
  libProbes : List LibProbe
  resolveClass : String → Bool
  newResult : Option ObjcId
  respondsAttachTo : Bool
  respondsAttachAlt : Bool
  attachPanics : Bool
  lockOk : Bool
  configSerializes : Bool
  respondsSetConfig : Bool
  setConfigPanics : Bool

/-- Function `attach_animator` in native_mask.rs (lines 21-228), as a function from
the prior `ANIMATOR` slot to the new one.  Every early `return` of the
source (window lookup failure, no class under any candidate name, `nil`
instantiation, no recognized attach selector, panic inside the
`attachTo:` call) leaves the slot untouched; a failed dylib load only
logs and continues ("relying on linker"); the slot is written exactly
when the `attachTo:` invocation returns without panicking and the lock is
healthy; the subsequent config-JSON propagation is best-effort and does
not touch the slot. -/
def attach_animator (env : AttachEnv) (slot : Option ObjcId) : Option ObjcId :=
  if !env.nsWindowOk then slot
  else
    let _loaded := tryLoadDylib env.libProbes
    match class_names.find? env.resolveClass with
    | none => slot
    | some _cls =>
      match env.newResult with
      | none => slot
      | some animator =>
        if !env.respondsAttachTo && !env.respondsAttachAlt then slot
        else if env.attachPanics then slot
        else if env.lockOk then some animator
        else slot

/-- All steps of `attach_animator` up to and including the `attachTo:`
invocation succeeded. -/
def attachSucceeds (env : AttachEnv) : Bool :=
  env.nsWindowOk && (class_names.find? env.resolveClass).isSome &&
  env.newResult.isSome &&
  (env.respondsAttachTo || env.respondsAttachAlt) && !env.attachPanics

/-- A non-default configuration exercising the config-linkage claims: the
compiled-in defaults with `hover.collapsed_zone_width` set to 999. -/
def cfgZone999 : NotchConfig :=
  { NotchConfig.default with
    hover := { NotchConfig.default.hover with
      collapsed_zone_width :=
        { value := 999
          description := "Hover zone width when collapsed" } } }

/-- A non-default configuration as a user config file could supply it: the
compiled-in defaults with `dimensions.collapsed_width` set to 999. -/
def cfgParsed999 : NotchConfig :=
  { NotchConfig.default with
    dimensions := { NotchConfig.default.dimensions with
      collapsed_width :=
        { value := 999
          description := "Width when collapsed" } } }

/-- A parse oracle (standing for `serde_json::from_str`) that accepts
exactly the file content `"good"`. -/
def parseOnlyGood : String → Option NotchConfig :=
  fun s => if s = "good" then some cfgParsed999 else none

/-- Exhaustive case analysis of one `handle_mouse_move` call: a matching
sample is a no-op, a differing sample below threshold restarts the
timestamp, and a confirmed transition flips the flag, stamps the time and
emits the new value. -/
theorem handle_mouse_move_cases (st : DebounceState) (i : Bool) (now : Nat) :
    (handle_mouse_move st i now = (st, none) ∧ i = st.inside) ∨
    (handle_mouse_move st i now = ({ inside := st.inside, ts := now }, none) ∧
      i ≠ st.inside) ∨
    (∃ v, v = !st.inside ∧ i ≠ st.inside ∧
      handle_mouse_move st i now = ({ inside := v, ts := now }, some v) ∧
      delayFor v ≤ now - st.ts) := by
  unfold handle_mouse_move
  dsimp only
  split_ifs with h1 h2 h3
  · simp only [Bool.and_eq_true, Bool.not_eq_true', decide_eq_true_eq] at h1
    refine Or.inr (Or.inr ⟨true, ?_, ?_, rfl, ?_⟩)
    · simp [h1.1.2]
    · simp [h1.1.1, h1.1.2]
    · simpa [delayFor] using h1.2
  · simp only [Bool.and_eq_true, Bool.not_eq_true', decide_eq_true_eq] at h2
    refine Or.inr (Or.inr ⟨false, ?_, ?_, rfl, ?_⟩)
    · simp [h2.1.2]
    · simp [h2.1.1, h2.1.2]
    · simpa [delayFor] using h2.2
  · simp only [bne_iff_ne, ne_eq] at h3
    exact Or.inr (Or.inl ⟨rfl, h3⟩)
  · simp only [bne_iff_ne, ne_eq, not_not] at h3
    exact Or.inl ⟨rfl, h3⟩

/-- The alternation invariant, strengthened with the current confirmed
state at the head of the chain. -/
theorem runSamples_chain (l : List (Bool × Nat)) :
    ∀ st : DebounceState,
      List.Chain' (fun a b => a ≠ b) (st.inside :: (runSamples st l).2) := by
  induction l with
  | nil => intro st; simp [runSamples]
  | cons p rest ih =>
    intro st
    obtain ⟨i, t⟩ := p
    rcases handle_mouse_move_cases st i t with ⟨heq, _⟩ | ⟨heq, _⟩ |
      ⟨v, hv, _, heq, _⟩
    · simpa [runSamples, heq] using ih st
    · simpa [runSamples, heq] using ih { inside := st.inside, ts := t }
    · have hne : st.inside ≠ v := by
        cases hst : st.inside <;> simp [hst] at hv ⊢ <;> simp [hv]
      have htail := ih { inside := v, ts := t }
      simp only [runSamples, heq, Option.toList_some, List.cons_append,
        List.nil_append]
      exact List.chain'_cons.mpr ⟨hne, by simpa using htail⟩

/-- Event count equals the number of confirmed flips along the trace. -/
theorem runSamples_length (l : List (Bool × Nat)) :
    ∀ st : DebounceState, (runSamples st l).2.length = countFlips st l := by
  induction l with
  | nil => intro st; simp [runSamples, countFlips]
  | cons p rest ih =>
    intro st
    obtain ⟨i, t⟩ := p
    rcases handle_mouse_move_cases st i t with ⟨heq, _⟩ | ⟨heq, _⟩ |
      ⟨v, hv, _, heq, _⟩
    · simp [runSamples, countFlips, heq, ih]
    · simp [runSamples, countFlips, heq, ih]
    · have hne : v ≠ st.inside := by
        cases hst : st.inside <;> simp [hst] at hv ⊢ <;> simp [hv]
      simp [runSamples, countFlips, heq, ih, hne]
      omega

/-- C1: for every sequence of pointer samples processed against one shared
debounce state, the emitted `notch-hover` values strictly alternate (no
two consecutive events carry the same boolean), and the number of emitted
events equals the number of confirmed state flips — exactly one event per
confirmed transition. -/
theorem debounce_events_alternate (st : DebounceState)
    (samples : List (Bool × Nat)) :
    List.Chain' (fun a b => a ≠ b) (runSamples st samples).2 ∧
    (runSamples st samples).2.length = countFlips st samples :=
  ⟨(runSamples_chain samples st).tail, runSamples_length samples st⟩

/-- Weakening the lower time bound preserves monotonicity of a sample
trace. -/
theorem timesMono_anti {t0' t0 : Nat} (h : t0' ≤ t0) :
    ∀ {l : List (Bool × Nat)}, timesMono t0 l = true → timesMono t0' l = true := by
  intro l hm
  cases l with
  | nil => simp [timesMono]
  | cons p rest =>
    obtain ⟨b, t⟩ := p
    simp only [timesMono, Bool.and_eq_true, decide_eq_true_eq] at hm ⊢
    exact ⟨le_trans h hm.1, hm.2⟩

/-- Core induction for the hysteresis bound: along a monotone trace whose
recorded timestamp dominates the last confirmed flip, every emitted event
comes at least its direction-specific delay after that flip. -/
theorem runTimed_delay (l : List (Bool × Nat)) :
    ∀ (st : DebounceState) (lf : Nat), lf ≤ st.ts →
      timesMono st.ts l = true →
      ∀ r ∈ (runTimed st lf l).2.2, delayFor r.2.1 ≤ r.1 - r.2.2 := by
  induction l with
  | nil => intro st lf _ _ r hr; simp [runTimed] at hr
  | cons p rest ih =>
    intro st lf hlf hmono r hr
    obtain ⟨i, t⟩ := p
    have hmono' : st.ts ≤ t ∧ timesMono t rest = true := by
      simpa [timesMono, Bool.and_eq_true] using hmono
    rcases handle_mouse_move_cases st i t with ⟨heq, _⟩ | ⟨heq, _⟩ |
      ⟨v, _, _, heq, hd⟩
    · refine ih st lf hlf (timesMono_anti hmono'.1 hmono'.2) r ?_
      simpa [runTimed, heq] using hr
    · refine ih { inside := st.inside, ts := t } lf
        (le_trans hlf hmono'.1) (by simpa using hmono'.2) r ?_
      simpa [runTimed, heq] using hr
    · have hr' : r = (t, v, lf) ∨ r ∈ (runTimed { inside := v, ts := t } t rest).2.2 := by
        simpa [runTimed, heq] using hr
      rcases hr' with rfl | hr'
      · exact le_trans hd (Nat.sub_le_sub_left hlf t)
      · exact ih { inside := v, ts := t } t le_rfl (by simpa using hmono'.2) r hr'

/-- C3: `handle_mouse_move` never emits a transition event before its
direction-specific delay has elapsed since the last confirmed state
change: along any monotone sample trace, every recorded emission
`(time, value, flipBefore)` satisfies
`delayFor value ≤ time - flipBefore` — at least the open delay for
`value = true`, the close delay for `value = false`. -/
theorem debounce_respects_delay (st : DebounceState) (lastFlip : Nat)
    (samples : List (Bool × Nat)) (h1 : lastFlip ≤ st.ts)
    (h2 : timesMono st.ts samples = true) :
    ∀ r ∈ (runTimed st lastFlip samples).2.2,
      delayFor r.2.1 ≤ r.1 - r.2.2 :=
  runTimed_delay samples st lastFlip h1 h2

/-- Witness for C3 at a concrete trace: state confirmed outside at t=0,
one inside sample at t=100. -/
theorem debounce_respects_delay_witness :
    (0 : Nat) ≤ (DebounceState.mk false 0).ts ∧
    timesMono (DebounceState.mk false 0).ts [(true, 100)] = true ∧
    ∀ r ∈ (runTimed { inside := false, ts := 0 } 0 [(true, 100)]).2.2,
      delayFor r.2.1 ≤ r.1 - r.2.2 :=
  ⟨by decide, by decide,
    debounce_respects_delay { inside := false, ts := 0 } 0 [(true, 100)]
      (by decide) (by decide)⟩

/-- C4: a sample whose classification matches the current confirmed state
leaves the debounce state entirely unchanged and emits nothing, while a
differing sample that has not met its direction-specific threshold writes
only the timestamp (set to the current instant), never the confirmed
flag, and emits nothing. -/
theorem debounce_noop_and_restart (st : DebounceState) (i : Bool) (now : Nat) :
    (i = st.inside → handle_mouse_move st i now = (st, none)) ∧
    (i ≠ st.inside → now - st.ts < delayFor i →
      handle_mouse_move st i now = ({ inside := st.inside, ts := now }, none)) := by
  constructor
  · intro hi
    subst hi
    unfold handle_mouse_move
    dsimp only
    split_ifs with h1 h2 h3 <;> simp_all
  · intro hne hlt
    unfold handle_mouse_move
    dsimp only
    split_ifs with h1 h2 h3
    · simp only [Bool.and_eq_true, Bool.not_eq_true', decide_eq_true_eq] at h1
      rw [h1.1.1] at hlt
      simp [delayFor] at hlt
      omega
    · simp only [Bool.and_eq_true, Bool.not_eq_true', decide_eq_true_eq] at h2
      rw [h2.1.1] at hlt
      simp [delayFor] at hlt
      omega
    · rfl
    · simp only [bne_iff_ne, ne_eq, not_not] at h3
      exact absurd h3 hne

/-- Witness for C4: a matching sample is a no-op; an early differing
sample (20 ms elapsed, below the 40 ms open threshold) only restarts the
timestamp. -/
theorem debounce_noop_and_restart_witness :
    handle_mouse_move { inside := false, ts := 100 } false 120 =
      ({ inside := false, ts := 100 }, none) ∧
    handle_mouse_move { inside := false, ts := 100 } true 120 =
      ({ inside := false, ts := 120 }, none) :=
  ⟨(debounce_noop_and_restart { inside := false, ts := 100 } false 120).1 rfl,
   (debounce_noop_and_restart { inside := false, ts := 100 } true 120).2
     (by decide) (by decide)⟩

/-- C2 (code divergence): the debounce thresholds in `handle_mouse_move`
are the hardcoded literals 40 ms / 120 ms, not the configured
`expand_delay_ms` / `collapse_delay_ms` (defaults 250 / 150): a pointer
classified inside 40 ms after the last state change already triggers a
`notch-hover{inside:true}` emission, an excursion far shorter than the
250 ms the configuration prescribes. -/
theorem debounce_thresholds_hardcoded :
    openDelayMs = 40 ∧ closeDelayMs = 120 ∧
    NotchConfig.default.hover.expand_delay_ms.value = 250 ∧
    NotchConfig.default.hover.collapse_delay_ms.value = 150 ∧
    runSamples { inside := false, ts := 0 } [(true, 40), (false, 90)] =
      ({ inside := true, ts := 90 }, [true]) := by
  refine ⟨rfl, rfl, rfl, rfl, ?_⟩
  decide

/-- C5 counterexample: with no animator handle attached and a healthy
lock, `expand` performs no window-size change and emits no
animation-completion event — contradicting the claimed synchronous
fallback. -/
theorem expand_unattached_counterexample :
    (expand true none).resizes = [] ∧ (expand true none).emitted = [] ∧
    expand true none = { calls := [], emitted := [], resizes := [] } :=
  ⟨rfl, rfl, rfl⟩

/-- C5 amended: `expand` never emits an event or resizes the window
itself; with no attached handle it issues no native call either, so it is
a complete no-op.  The direct-resize path `animate_window_to` (which does
resize and emit `notch-native-anim-end`) exists in native_anim.rs but is
not invoked by `expand`. -/
theorem expand_unattached_noop (lockOk : Bool) (slot : Option ObjcId)
    (w h : ℚ) :
    (expand lockOk slot).emitted = [] ∧ (expand lockOk slot).resizes = [] ∧
    (expand lockOk none).calls = [] ∧
    animate_window_to true w h "expand" =
      { calls := []
        emitted := [{ channel := "notch-native-anim-end", phase := "expand" }]
        resizes := [(w, h)] } := by
  refine ⟨?_, ?_, ?_, rfl⟩
  · cases lockOk <;> cases slot <;> rfl
  · cases lockOk <;> cases slot <;> rfl
  · cases lockOk <;> rfl

/-- C6: whenever `attach_animator` fails at any step before the
`attachTo:` invocation succeeds — window lookup failure, no class
resolved under any candidate name, `nil` instantiation, no recognized
attach selector, or a panic inside the invocation — the `ANIMATOR` slot
keeps its previous contents: a `none` stays `none` and a previously
stored handle is left intact. -/
theorem attach_failure_preserves_slot (env : AttachEnv)
    (slot : Option ObjcId) (h : attachSucceeds env = false) :
    attach_animator env slot = slot := by
  unfold attachSucceeds at h
  unfold attach_animator
  cases hw : env.nsWindowOk with
  | false => simp
  | true =>
    rw [hw] at h
    simp only [hw, Bool.not_true, Bool.false_eq_true, if_false]
    cases hfind : class_names.find? env.resolveClass with
    | none => rfl
    | some cls =>
      rw [hfind] at h
      simp only [hfind]
      cases hnew : env.newResult with
      | none => rfl
      | some animator =>
        rw [hnew] at h
        simp only [hnew]
        revert h
        cases env.respondsAttachTo <;> cases env.respondsAttachAlt <;>
          cases env.attachPanics <;> simp

/-- Witness for C6: an environment in which no candidate class name
resolves leaves both an empty and an occupied slot unchanged. -/
theorem attach_failure_preserves_slot_witness :
    attachSucceeds
      { nsWindowOk := true, libProbes := [], resolveClass := fun _ => false
        newResult := none, respondsAttachTo := false
        respondsAttachAlt := false, attachPanics := false, lockOk := true
        configSerializes := true, respondsSetConfig := false
        setConfigPanics := false } = false ∧
    attach_animator
      { nsWindowOk := true, libProbes := [], resolveClass := fun _ => false
        newResult := none, respondsAttachTo := false
        respondsAttachAlt := false, attachPanics := false, lockOk := true
        configSerializes := true, respondsSetConfig := false
        setConfigPanics := false } (some 7) = some 7 :=
  ⟨rfl,
   attach_failure_preserves_slot _ (some 7) rfl⟩

/-- C7: `_notch_notify_anim_end` with a null app pointer emits nothing;
otherwise it emits exactly one `notch-native-anim-end` event whose phase
is `"expand"` precisely when the `i32` phase argument is `0` and
`"collapse"` for every other value, so the phase is always one of the two
declared values. -/
theorem notify_anim_end_spec (phase : Int) :
    notify_anim_end true phase = [] ∧
    (notify_anim_end false phase).length = 1 ∧
    ∀ e ∈ notify_anim_end false phase,
      e.channel = "notch-native-anim-end" ∧
      (e.phase = "expand" ∨ e.phase = "collapse") ∧
      (e.phase = "expand" ↔ phase = 0) := by
  refine ⟨rfl, ?_, ?_⟩
  · by_cases h : phase = 0 <;> simp [notify_anim_end, h]
  · intro e he
    by_cases h : phase = 0 <;> simp [notify_anim_end, h] at he <;> subst he
    · simp [h]
    · refine ⟨rfl, Or.inr rfl, ?_⟩
      constructor
      · intro habs; exact absurd habs (by decide)
      · intro habs; exact absurd habs h

/-- Witness for C7 at phase 0: the emitted event reports `"expand"`. -/
theorem notify_anim_end_spec_witness :
    ({ channel := "notch-native-anim-end", phase := "expand" } :
      EmittedEvent).phase = "expand" ↔ (0 : Int) = 0 :=
  ((notify_anim_end_spec 0).2.2
    { channel := "notch-native-anim-end", phase := "expand" }
    (by simp [notify_anim_end])).2.2

/-- C8: `set_progress` never reaches an error outcome for any progress
value of any type (the `f64` is forwarded without inspection, so
out-of-range and non-finite values are covered); with a poisoned lock or
an empty slot it performs nothing, and with an attached handle it
forwards exactly the given value to exactly that handle. -/
theorem set_progress_total {α : Type}
    (lockResult : Except Unit (Option ObjcId)) (p : α) :
    (∀ msg, set_progress lockResult p ≠ Except.error msg) ∧
    (lockResult = Except.error () →
      set_progress lockResult p = Except.ok []) ∧
    (lockResult = Except.ok none →
      set_progress lockResult p = Except.ok []) ∧
    (∀ hd, lockResult = Except.ok (some hd) →
      set_progress lockResult p = Except.ok [(hd, p)]) := by
  refine ⟨?_, ?_, ?_, ?_⟩
  · intro msg hcontra
    cases lockResult with
    | error u => simp [set_progress] at hcontra
    | ok slot => cases slot <;> simp [set_progress] at hcontra
  · intro h; subst h; rfl
  · intro h; subst h; rfl
  · intro hd h; subst h; rfl

/-- Witness for C8 at concrete inputs (poisoned lock, empty slot, and an
attached handle with an arbitrary rational progress value). -/
theorem set_progress_total_witness :
    set_progress (Except.error ()) (5 : ℚ) = Except.ok [] ∧
    set_progress (Except.ok none) (5 : ℚ) = Except.ok [] ∧
    set_progress (Except.ok (some 3)) (5 : ℚ) = Except.ok [(3, 5)] :=
  ⟨(set_progress_total (Except.error ()) (5 : ℚ)).2.1 rfl,
   (set_progress_total (Except.ok none) (5 : ℚ)).2.2.1 rfl,
   (set_progress_total (Except.ok (some 3)) (5 : ℚ)).2.2.2 3 rfl⟩

/-- C9 (code divergence): on a 1000×500 display with the pointer at
(500, 490), the source's `hover_zone` returns the hardcoded collapsed
zone 460×50 (centered: x = 270, top-anchored: y = 450), while the
spec-worded computation over a configuration whose
`collapsed_zone_width` is 999 would return width 999 — the closure never
reads the `ConfigSnapshot` hover fields. -/
theorem hover_zone_ignores_config :
    hover_zone [{ x := 0, y := 0, w := 1000, h := 500 }] false
      { x := 500, y := 490 } = some (270, 450, 460, 50) ∧
    hover_zone_spec cfgZone999 [{ x := 0, y := 0, w := 1000, h := 500 }]
      false { x := 500, y := 490 } = some (1/2, 450, 999, 50) ∧
    cfgZone999.hover.collapsed_zone_width.value = 999 ∧
    (460 : ℚ) ≠ 999 := by
  refine ⟨?_, ?_, rfl, by norm_num⟩
  · simp [hover_zone, List.find?]
    norm_num
  · simp [hover_zone_spec, cfgZone999, NotchConfig.default, List.find?]
    norm_num

/-- The candidate loop of `NotchConfig::load` commits to the first
readable candidate: `notFound` when none is readable, otherwise the parse
outcome of exactly that first readable content. -/
theorem loadFrom_firstSome (parse : String → Option NotchConfig) :
    ∀ l : List (Option String),
      (firstSome l = none → loadFrom parse l = .error .notFound) ∧
      (∀ s, firstSome l = some s →
        loadFrom parse l =
          match parse s with
          | some cfg => Except.ok cfg
          | none => Except.error ConfigError.parseFailed) := by
  intro l
  induction l with
  | nil =>
    exact ⟨fun _ => rfl, fun s hs => by simp [firstSome] at hs⟩
  | cons c rest ih =>
    cases c with
    | none => simpa [firstSome, loadFrom] using ih
    | some content =>
      refine ⟨fun hnone => by simp [firstSome] at hnone, fun s hs => ?_⟩
      simp only [firstSome, Option.some.injEq] at hs
      subst hs
      rfl

/-- C10 counterexample: with two readable candidates where only the
second parses, `NotchConfig::load` propagates the parse error of the
first readable file instead of letting the second win, and
`NotchConfig::get` falls back to the compiled-in defaults rather than the
parseable second candidate. -/
theorem config_load_aborts_on_unparseable :
    NotchConfig.load parseOnlyGood
      [some (some "bad"), some (some "good")] =
        Except.error ConfigError.parseFailed ∧
    NotchConfig.get parseOnlyGood
      [some (some "bad"), some (some "good")] = NotchConfig.default ∧
    parseOnlyGood "good" = some cfgParsed999 ∧
    cfgParsed999 ≠ NotchConfig.default := by
  refine ⟨rfl, rfl, rfl, ?_⟩
  intro habs
  have hval := congrArg (fun c => c.dimensions.collapsed_width.value) habs
  simp only [cfgParsed999, NotchConfig.default] at hval
  norm_num at hval

/-- C10 amended: `NotchConfig::load` commits to the *first readable*
candidate (unreadable ones are skipped): if no candidate is readable it
fails with `notFound` and `get` returns the compiled-in defaults; if the
first readable content parses, that configuration wins; if it does not
parse, loading fails immediately — later candidates are not tried — and
`get` returns the defaults, in which `expand_duration` is 0.50 and
`collapsed_width` is 460.0. -/
theorem config_load_first_readable (parse : String → Option NotchConfig)
    (cands : List (Option (Option String))) :
    (firstReadable cands = none →
      NotchConfig.load parse cands = Except.error ConfigError.notFound ∧
      NotchConfig.get parse cands = NotchConfig.default) ∧
    (∀ s, firstReadable cands = some s →
      (∀ cfg, parse s = some cfg →
        NotchConfig.load parse cands = Except.ok cfg ∧
        NotchConfig.get parse cands = cfg) ∧
      (parse s = none →
        NotchConfig.load parse cands = Except.error ConfigError.parseFailed ∧
        NotchConfig.get parse cands = NotchConfig.default)) ∧
    NotchConfig.default.animation.expand_duration.value = 0.50 ∧
    NotchConfig.default.dimensions.collapsed_width.value = 460.0 := by
  have base := loadFrom_firstSome parse (cands.filterMap id)
  refine ⟨?_, ?_, rfl, rfl⟩
  · intro hnone
    have hl : NotchConfig.load parse cands = Except.error ConfigError.notFound :=
      base.1 hnone
    exact ⟨hl, by unfold NotchConfig.get; rw [hl]⟩
  · intro s hs
    have hl := base.2 s hs
    constructor
    · intro cfg hp
      rw [hp] at hl
      have hl' : NotchConfig.load parse cands = Except.ok cfg := hl
      exact ⟨hl', by unfold NotchConfig.get; rw [hl']⟩
    · intro hp
      rw [hp] at hl
      have hl' : NotchConfig.load parse cands =
          Except.error ConfigError.parseFailed := hl
      exact ⟨hl', by unfold NotchConfig.get; rw [hl']⟩

/-- Witness for C10: with an unreadable first candidate and a readable,
parseable one, the parsed configuration wins. -/
theorem config_load_first_readable_witness :
    firstReadable [none, some none, some (some "good")] = some "good" ∧
    NotchConfig.get parseOnlyGood [none, some none, some (some "good")] =
      cfgParsed999 :=
  ⟨rfl,
   (((config_load_first_readable parseOnlyGood
      [none, some none, some (some "good")]).2.1 "good" rfl).1
      cfgParsed999 rfl).2⟩
